import Mathlib

/-!
Verification of the yaya-backend proxy (a Nest.js service `AppService` in
`src/app.service.ts` and its controller `AppController`) against its
natural-language specification.

The TypeScript source is shallowly embedded: JavaScript runtime values are
modelled by `JValue`, JavaScript numbers by `JSNum` (rationals together with
NaN and the two signed infinities), property access that can raise a
TypeError returns `Except`, and the service / controller functions are
translated definition by definition from the source.  The crypto primitives
(SHA-256, HMAC-SHA256, Base64) are implemented concretely.
-/

namespace Yaya

/-- Fuel-driven Euclidean algorithm; with fuel `b + 1` it computes
`gcd a b` (each step strictly decreases the second argument). -/
def gcdF : Nat → Nat → Nat → Nat
  | 0, a, _ => a
  | fuel + 1, a, b => if b = 0 then a else gcdF fuel b (a % b)

/-- Greatest common divisor (structurally recursive, hence it reduces both
in the elaborator and in the kernel). -/
def natGcd (a b : Nat) : Nat := gcdF (b + 1) a b

/-- An exact rational, numerator over positive denominator, kept normalized
by the smart constructor `mkFrac`.  Every finite IEEE-754 double is a finite
decimal, hence exactly representable here. -/
structure Frac where
  n : Int
  d : Nat
deriving DecidableEq, Repr

instance : OfNat Frac k := ⟨⟨(k : Int), 1⟩⟩

/-- Normalized fraction `n / d` (for positive `d`). -/
def mkFrac (n : Int) (d : Nat) : Frac :=
  let g := natGcd n.natAbs d
  if g = 0 then ⟨0, 1⟩
  else ⟨n / (g : Int), d / g⟩

/-- The fraction `i / 1` of an integer. -/
def intF (i : Int) : Frac := ⟨i, 1⟩

/-- The fraction `k / 1` of a natural number. -/
def natF (k : Nat) : Frac := ⟨(k : Int), 1⟩

/-- Fraction addition. -/
def fadd (a b : Frac) : Frac :=
  mkFrac (a.n * (b.d : Int) + b.n * (a.d : Int)) (a.d * b.d)

/-- Fraction multiplication. -/
def fmul (a b : Frac) : Frac := mkFrac (a.n * b.n) (a.d * b.d)

/-- Fraction negation. -/
def fneg (a : Frac) : Frac := ⟨-a.n, a.d⟩

/-- Fraction division (callers guard against a zero divisor). -/
def fdivF (a b : Frac) : Frac :=
  if b.n < 0 then mkFrac (-(a.n * (b.d : Int))) (a.d * b.n.natAbs)
  else mkFrac (a.n * (b.d : Int)) (a.d * b.n.natAbs)

/-- Scaling by a signed power of ten (the exponent part of a decimal
literal). -/
def scalePow10 (q : Frac) (ex : Int) : Frac :=
  if 0 ≤ ex then fmul q ⟨((10 ^ ex.toNat : Nat) : Int), 1⟩
  else fmul q ⟨1, 10 ^ (-ex).toNat⟩

/-- Ceiling of a fraction as an integer. -/
def ceilF (q : Frac) : Int := -(Int.fdiv (-q.n) (q.d : Int))

/-- Model of a JavaScript number: NaN, a signed infinity, or a finite value
represented exactly. -/
inductive JSNum where
  | nan : JSNum
  | inf (neg : Bool) : JSNum
  | val (q : Frac) : JSNum
deriving DecidableEq, Repr

/-- Model of a JavaScript runtime value as produced by JSON payloads and the
service code: `undefined`, `null`, booleans, numbers, strings, arrays and
plain objects (association lists of string keys). -/
inductive JValue where
  | undefined : JValue
  | null : JValue
  | bool (b : Bool) : JValue
  | num (n : JSNum) : JValue
  | str (s : String) : JValue
  | arr (xs : List JValue) : JValue
  | obj (kvs : List (String × JValue)) : JValue

/-- JavaScript truthiness of a number: NaN and 0 are falsy. -/
def numTruthy : JSNum → Bool
  | .nan => false
  | .inf _ => true
  | .val q => q.n != 0

/-- JavaScript truthiness: `undefined`, `null`, `false`, `NaN`, `0` and the
empty string are falsy; every other value is truthy. -/
def truthy : JValue → Bool
  | .undefined => false
  | .null => false
  | .bool b => b
  | .num n => numTruthy n
  | .str s => s != ""
  | .arr _ => true
  | .obj _ => true

/-- The JavaScript `||` operator on values: left operand if truthy, else the
right operand. -/
def jsOr (a b : JValue) : JValue := if truthy a then a else b

/-- The JavaScript `||` operator restricted to numbers (both operands are
numbers in the source at its use sites, e.g. `parseFloat(x) || 0`). -/
def orNum (a b : JSNum) : JSNum := if numTruthy a then a else b

/-- Whether a value is `null` or `undefined` (the values on which property
access throws a TypeError). -/
def isNullish : JValue → Bool
  | .null => true
  | .undefined => true
  | _ => false

/-- Whether a value is an array (`Array.isArray`). -/
def isArr : JValue → Bool
  | .arr _ => true
  | _ => false

/-- Key lookup in a modelled object. -/
def lookupKey : List (String × JValue) → String → Option JValue
  | [], _ => none
  | (k, v) :: rest, key => if k = key then some v else lookupKey rest key

/-- Total property access: the property of an object, `undefined` for a
missing property or for any primitive / array receiver (the source only
reads named properties that arrays and primitives do not have).  Only
meaningful for non-nullish receivers; see `getField` for the throwing
behaviour of JavaScript property access. -/
def jGet : JValue → String → JValue
  | .obj kvs, k => (lookupKey kvs k).getD .undefined
  | _, _ => .undefined

/-- JavaScript property access `v.k`: throws a TypeError when the receiver is
`null` or `undefined`, otherwise yields `jGet`. -/
def getField (v : JValue) (k : String) : Except String JValue :=
  match v with
  | .null => .error "TypeError"
  | .undefined => .error "TypeError"
  | v => .ok (jGet v k)

/-- JavaScript optional-chaining access `v?.k`: yields `undefined` instead of
throwing when the receiver is nullish. -/
def jGetOpt (v : JValue) (k : String) : JValue :=
  if isNullish v then .undefined else jGet v k

/-- Decimal digits of a character list interpreted as a natural number. -/
def digitsToNat (cs : List Char) : Nat :=
  cs.foldl (fun acc c => acc * 10 + (c.toNat - 48)) 0

/-- Whitespace characters recognised when trimming numeric strings. -/
def isWsChar (c : Char) : Bool :=
  c = ' ' ∨ c = '\t' ∨ c = '\n' ∨ c = '\r'

/-- Drop leading whitespace from a character list. -/
def dropLeadingWs (cs : List Char) : List Char := cs.dropWhile isWsChar

/-- Drop trailing whitespace from a character list. -/
def dropTrailingWs (cs : List Char) : List Char :=
  (cs.reverse.dropWhile isWsChar).reverse

/-- Split an optional leading sign, returning whether the value is negated
and the remaining characters. -/
def splitSign : List Char → Bool × List Char
  | '-' :: r => (true, r)
  | '+' :: r => (false, r)
  | r => (false, r)

/-- Whether the characters start with the literal `Infinity`. -/
def isInfinityPrefix : List Char → Bool
  | 'I' :: 'n' :: 'f' :: 'i' :: 'n' :: 'i' :: 't' :: 'y' :: _ => true
  | _ => false

/-- Whether the characters are exactly the literal `Infinity`. -/
def isInfinityExact (cs : List Char) : Bool :=
  cs = ['I', 'n', 'f', 'i', 'n', 'i', 't', 'y']

/-- Parse an exponent part `e[+-]digits` at the front of the characters; when
the exponent is well formed return it and the rest, otherwise consume
nothing (JavaScript numeric parsing backtracks over an incomplete
exponent). -/
def parseExponentPrefix (cs : List Char) : Int × List Char :=
  match cs with
  | c :: rest =>
    if c = 'e' ∨ c = 'E' then
      let (neg, rest2) := splitSign rest
      let (ds, rest3) := rest2.span Char.isDigit
      if ds.isEmpty then (0, cs)
      else ((if neg then -(digitsToNat ds : Int) else (digitsToNat ds : Int)), rest3)
    else (0, cs)
  | [] => (0, cs)

/-- Parse an unsigned decimal literal `digits[.digits][exponent]` at the
front of the characters, returning its exact rational value and the
unconsumed rest; `none` when no digits are present at all. -/
def parseDecimalPrefix (cs : List Char) : Option (Frac × List Char) :=
  let (ds, rest) := cs.span Char.isDigit
  let (fs, rest2) :=
    match rest with
    | '.' :: r => r.span Char.isDigit
    | _ => ([], rest)
  if ds.isEmpty ∧ fs.isEmpty then none
  else
    let mantissa : Frac :=
      fadd (natF (digitsToNat ds)) (mkFrac (digitsToNat fs : Int) (10 ^ fs.length))
    let (ex, rest3) := parseExponentPrefix rest2
    some (scalePow10 mantissa ex, rest3)

/-- JavaScript `parseFloat` on a string: skip leading whitespace, optional
sign, `Infinity` or the longest decimal-literal prefix; NaN when no prefix
parses. -/
def parseFloatStr (s : String) : JSNum :=
  let cs := dropLeadingWs s.toList
  let (neg, cs2) := splitSign cs
  if isInfinityPrefix cs2 then .inf neg
  else
    match parseDecimalPrefix cs2 with
    | none => .nan
    | some (q, _) => .val (if neg then fneg q else q)

/-- Fuel-bounded decimal expansion of a proper fraction `num/den`, used to
render finite JavaScript numbers (every IEEE double terminates well within
the fuel). -/
def renderFracDigits (num den : Nat) : Nat → String
  | 0 => ""
  | fuel + 1 =>
    if num = 0 then ""
    else
      let num10 := num * 10
      toString (num10 / den) ++ renderFracDigits (num10 % den) den fuel

/-- Decimal rendering of a fraction, as JavaScript renders a finite number
(no exponent notation; the source never renders numbers of extreme
magnitude). -/
def renderQ (q : Frac) : String :=
  let sign := if q.n < 0 then "-" else ""
  let n := q.n.natAbs
  let d := q.d
  let frac := renderFracDigits (n % d) d 1100
  sign ++ toString (n / d) ++ (if frac = "" then "" else "." ++ frac)

/-- JavaScript `String()` / template-literal conversion of a number. -/
def jsNumToString : JSNum → String
  | .nan => "NaN"
  | .inf neg => if neg then "-Infinity" else "Infinity"
  | .val q => renderQ q

/-- JavaScript `String()` / template-literal conversion of a value, with a
fuel argument bounding the array-nesting depth so that the recursion is
structural (any fuel at least the nesting depth gives the JavaScript
result): `undefined`/`null`/booleans/numbers/strings as usual, arrays joined
with commas (`Array.prototype.join`, nullish elements rendering as the empty
string), plain objects as `[object Object]`. -/
def jsToStringF : Nat → JValue → String
  | _, .undefined => "undefined"
  | _, .null => "null"
  | _, .bool b => if b then "true" else "false"
  | _, .num n => jsNumToString n
  | _, .str s => s
  | _, .obj _ => "[object Object]"
  | 0, .arr _ => ""
  | fuel + 1, .arr xs =>
    String.intercalate ","
      (xs.map (fun x =>
        match x with
        | .undefined => ""
        | .null => ""
        | y => jsToStringF fuel y))

/-- JavaScript `String()` / template-literal conversion of a value.  The
fuel bounds the array-nesting depth at 10000; a JavaScript engine itself
exhausts its call stack on `Array.prototype.join` at nesting of that order,
and no value handled by this service approaches it. -/
def jsToString (v : JValue) : String := jsToStringF 10000 v

/-- `Array.prototype.toString` (comma-joined elements). -/
def jsArrToString (xs : List JValue) : String := jsToString (.arr xs)

/-- JavaScript `parseFloat` applied to an arbitrary value: the argument is
first converted to a string. -/
def parseFloatJ (v : JValue) : JSNum := parseFloatStr (jsToString v)

/-- Hexadecimal digit test. -/
def isHexDigit (c : Char) : Bool :=
  c.isDigit ∨ ('a' ≤ c ∧ c ≤ 'f') ∨ ('A' ≤ c ∧ c ≤ 'F')

/-- Value of a hexadecimal digit. -/
def hexDigitVal (c : Char) : Nat :=
  if c.isDigit then c.toNat - 48
  else if 'a' ≤ c ∧ c ≤ 'f' then c.toNat - 87
  else c.toNat - 55

/-- Natural number denoted by hexadecimal digits. -/
def hexDigitsToNat (cs : List Char) : Nat :=
  cs.foldl (fun acc c => acc * 16 + hexDigitVal c) 0

/-- JavaScript `ToNumber` on a string: whole-string numeric parse, with the
empty (or all-whitespace) string giving 0 and hexadecimal literals
supported. -/
def toNumberStr (s : String) : JSNum :=
  let cs := dropTrailingWs (dropLeadingWs s.toList)
  match cs with
  | [] => .val 0
  | '0' :: 'x' :: rest =>
    if ¬ rest.isEmpty ∧ rest.all isHexDigit then .val (natF (hexDigitsToNat rest)) else .nan
  | '0' :: 'X' :: rest =>
    if ¬ rest.isEmpty ∧ rest.all isHexDigit then .val (natF (hexDigitsToNat rest)) else .nan
  | _ =>
    let (neg, cs2) := splitSign cs
    if isInfinityExact cs2 then .inf neg
    else
      match parseDecimalPrefix cs2 with
      | some (q, []) => .val (if neg then fneg q else q)
      | _ => .nan

/-- JavaScript `ToNumber` coercion of a value (as applied by arithmetic
operators and `Number()`). -/
def toNumber : JValue → JSNum
  | .undefined => .nan
  | .null => .val 0
  | .bool b => .val (if b then 1 else 0)
  | .num n => n
  | .str s => toNumberStr s
  | .arr xs => toNumberStr (jsArrToString xs)
  | .obj _ => .nan

/-- JavaScript division of two numbers, including the NaN / infinity /
division-by-zero cases. -/
def jsDiv : JSNum → JSNum → JSNum
  | .nan, _ => .nan
  | _, .nan => .nan
  | .inf _, .inf _ => .nan
  | .inf neg, .val q => if q.n < 0 then .inf (!neg) else .inf neg
  | .val _, .inf _ => .val 0
  | .val a, .val b =>
    if b.n = 0 then (if a.n = 0 then .nan else .inf (decide (a.n < 0)))
    else .val (fdivF a b)

/-- JavaScript `Math.ceil`. -/
def jsCeil : JSNum → JSNum
  | .nan => .nan
  | .inf neg => .inf neg
  | .val q => .val (intF (ceilF q))

/-- JavaScript `String.prototype.trim` (leading and trailing whitespace
removed). -/
def jsTrim (s : String) : String :=
  String.mk (dropTrailingWs (dropLeadingWs s.toList))

/-- JavaScript `parseInt(s, 10)`: skip leading whitespace, optional sign,
then the longest prefix of decimal digits; `none` models NaN. -/
def parseIntJS (s : String) : Option Int :=
  let cs := dropLeadingWs s.toList
  let (neg, cs2) := splitSign cs
  let (ds, _) := cs2.span Char.isDigit
  if ds.isEmpty then none
  else some ((if neg then -1 else 1) * (digitsToNat ds : Int))

/-! ## Crypto primitives: SHA-256, HMAC-SHA256, Base64, UTF-8 -/

/-- UTF-8 encoding of a single character. -/
def charUtf8 (c : Char) : List Nat :=
  let n := c.toNat
  if n < 0x80 then [n]
  else if n < 0x800 then [0xC0 + n / 0x40, 0x80 + n % 0x40]
  else if n < 0x10000 then
    [0xE0 + n / 0x1000, 0x80 + (n / 0x40) % 0x40, 0x80 + n % 0x40]
  else
    [0xF0 + n / 0x40000, 0x80 + (n / 0x1000) % 0x40, 0x80 + (n / 0x40) % 0x40, 0x80 + n % 0x40]

/-- UTF-8 bytes of a string. -/
def strToBytes (s : String) : List Nat := (s.toList.map charUtf8).flatten

/-- Addition modulo 2^32. -/
def add32 (a b : Nat) : Nat := (a + b) % 4294967296

/-- Right rotation of a 32-bit word. -/
def rotr32 (n x : Nat) : Nat := ((x >>> n) ||| (x <<< (32 - n))) % 4294967296

/-- SHA-256 big sigma 0. -/
def bsig0 (x : Nat) : Nat := (rotr32 2 x) ^^^ (rotr32 13 x) ^^^ (rotr32 22 x)

/-- SHA-256 big sigma 1. -/
def bsig1 (x : Nat) : Nat := (rotr32 6 x) ^^^ (rotr32 11 x) ^^^ (rotr32 25 x)

/-- SHA-256 small sigma 0. -/
def ssig0 (x : Nat) : Nat := (rotr32 7 x) ^^^ (rotr32 18 x) ^^^ (x >>> 3)

/-- SHA-256 small sigma 1. -/
def ssig1 (x : Nat) : Nat := (rotr32 17 x) ^^^ (rotr32 19 x) ^^^ (x >>> 10)

/-- SHA-256 choose function. -/
def shaCh (x y z : Nat) : Nat := (x &&& y) ^^^ ((x ^^^ 0xFFFFFFFF) &&& z)

/-- SHA-256 majority function. -/
def shaMaj (x y z : Nat) : Nat := (x &&& y) ^^^ (x &&& z) ^^^ (y &&& z)

/-- The 64 SHA-256 round constants, in rows of eight. -/
def shaK : List Nat :=
  [0x428a2f98, 0x71374491, 0xb5c0fbcf, 0xe9b5dba5, 0x3956c25b, 0x59f111f1, 0x923f82a4, 0xab1c5ed5] ++
  [0xd807aa98, 0x12835b01, 0x243185be, 0x550c7dc3, 0x72be5d74, 0x80deb1fe, 0x9bdc06a7, 0xc19bf174] ++
  [0xe49b69c1, 0xefbe4786, 0x0fc19dc6, 0x240ca1cc, 0x2de92c6f, 0x4a7484aa, 0x5cb0a9dc, 0x76f988da] ++
  [0x983e5152, 0xa831c66d, 0xb00327c8, 0xbf597fc7, 0xc6e00bf3, 0xd5a79147, 0x06ca6351, 0x14292967] ++
  [0x27b70a85, 0x2e1b2138, 0x4d2c6dfc, 0x53380d13, 0x650a7354, 0x766a0abb, 0x81c2c92e, 0x92722c85] ++
  [0xa2bfe8a1, 0xa81a664b, 0xc24b8b70, 0xc76c51a3, 0xd192e819, 0xd6990624, 0xf40e3585, 0x106aa070] ++
  [0x19a4c116, 0x1e376c08, 0x2748774c, 0x34b0bcb5, 0x391c0cb3, 0x4ed8aa4a, 0x5b9cca4f, 0x682e6ff3] ++
  [0x748f82ee, 0x78a5636f, 0x84c87814, 0x8cc70208, 0x90befffa, 0xa4506ceb, 0xbef9a3f7, 0xc67178f2]

/-- The SHA-256 initial hash state. -/
def shaH0 : List Nat :=
  [0x6a09e667, 0xbb67ae85, 0x3c6ef372, 0xa54ff53a, 0x510e527f, 0x9b05688c, 0x1f83d9ab, 0x5be0cd19]

/-- Big-endian byte rendering of a value on `n` bytes. -/
def toBytesBE (n v : Nat) : List Nat :=
  (List.range n).map (fun i => (v >>> (8 * (n - 1 - i))) % 256)

/-- SHA-256 message padding: append 0x80, zeros, then the 64-bit big-endian
bit length, reaching a multiple of 64 bytes. -/
def padMessage (msg : List Nat) : List Nat :=
  let len := msg.length
  let padZeros := (119 - len % 64) % 64
  msg ++ [0x80] ++ List.replicate padZeros 0 ++ toBytesBE 8 (len * 8)

/-- Pack bytes into big-endian 32-bit words. -/
def bytesToWords : List Nat → List Nat
  | b0 :: b1 :: b2 :: b3 :: rest => (((b0 * 256 + b1) * 256 + b2) * 256 + b3) :: bytesToWords rest
  | _ => []

/-- Split a word list into 16-word blocks. -/
def chunk16 : List Nat → List (List Nat)
  | w0 :: w1 :: w2 :: w3 :: w4 :: w5 :: w6 :: w7 ::
    w8 :: w9 :: w10 :: w11 :: w12 :: w13 :: w14 :: w15 :: rest =>
    [w0, w1, w2, w3, w4, w5, w6, w7, w8, w9, w10, w11, w12, w13, w14, w15] :: chunk16 rest
  | _ => []

/-- Word access in the message schedule. -/
def nthW (w : List Nat) (i : Nat) : Nat := w.getD i 0

/-- Extend a 16-word block by `count` scheduled words. -/
def extendW (w : List Nat) : Nat → List Nat
  | 0 => w
  | c + 1 =>
    let t := w.length
    extendW
      (w ++ [add32 (add32 (ssig1 (nthW w (t - 2))) (nthW w (t - 7)))
               (add32 (ssig0 (nthW w (t - 15))) (nthW w (t - 16)))])
      c

/-- One SHA-256 compression round on the eight-word working state. -/
def compressStep (k w : Nat) (s : List Nat) : List Nat :=
  match s with
  | [a, b, c, d, e, f, g, h] =>
    let t1 := add32 h (add32 (bsig1 e) (add32 (shaCh e f g) (add32 k w)))
    let t2 := add32 (bsig0 a) (shaMaj a b c)
    [add32 t1 t2, a, b, c, add32 d t1, e, f, g]
  | s => s

/-- SHA-256 compression of one 16-word block into the hash state. -/
def compressBlock (h : List Nat) (block : List Nat) : List Nat :=
  let w := extendW block 48
  let final := (shaK.zip w).foldl (fun s kw => compressStep kw.1 kw.2 s) h
  List.zipWith add32 h final

/-- SHA-256 of a byte list, as a 32-byte list. -/
def sha256 (msg : List Nat) : List Nat :=
  let blocks := chunk16 (bytesToWords (padMessage msg))
  let hFinal := blocks.foldl compressBlock shaH0
  hFinal.foldr (fun w acc => toBytesBE 4 w ++ acc) []

/-- HMAC-SHA256 of a message under a key (both byte lists). -/
def hmacSha256 (key msg : List Nat) : List Nat :=
  let key := if 64 < key.length then sha256 key else key
  let key := key ++ List.replicate (64 - key.length) 0
  let ipad := key.map (fun b => b ^^^ 0x36)
  let opad := key.map (fun b => b ^^^ 0x5c)
  sha256 (opad ++ sha256 (ipad ++ msg))

/-- The standard Base64 alphabet. -/
def base64Table : List Char :=
  "ABCDEFGHIJKLMNOPQRSTUVWXYZabcdefghijklmnopqrstuvwxyz0123456789+/".toList

/-- Base64 digit for a 6-bit value. -/
def b64c (n : Nat) : Char := base64Table.getD n 'A'

/-- Standard Base64 encoding of a byte list, with `=` padding. -/
def base64Encode : List Nat → String
  | [] => ""
  | [b0] => String.mk [b64c (b0 / 4), b64c (b0 % 4 * 16), '=', '=']
  | [b0, b1] => String.mk [b64c (b0 / 4), b64c (b0 % 4 * 16 + b1 / 16), b64c (b1 % 16 * 4), '=']
  | b0 :: b1 :: b2 :: rest =>
    String.mk [b64c (b0 / 4), b64c (b0 % 4 * 16 + b1 / 16),
               b64c (b1 % 16 * 4 + b2 / 64), b64c (b2 % 64)] ++ base64Encode rest

/-! ## The service (`src/app.service.ts`) -/

/-- The immutable configuration held by `AppService`: the two credentials
read from the environment and the hard-coded base URL. -/
structure Config where
  apiKey : String
  apiSecret : String
  baseUrl : String
deriving DecidableEq, Repr

/-- The `AppService` constructor: reads `YAYA_API_KEY` and `YAYA_API_SECRET`
from the environment (`?? ''` when absent), throws when either is falsy;
`baseUrl` is the hard-coded constant `https://sandbox.yayawallet.com`. -/
def mkAppService (env : String → Option String) : Except String Config :=
  let apiKey := (env "YAYA_API_KEY").getD ""
  let apiSecret := (env "YAYA_API_SECRET").getD ""
  if apiKey = "" ∨ apiSecret = "" then
    .error "YaYa Wallet API credentials not configured"
  else
    .ok { apiKey := apiKey, apiSecret := apiSecret, baseUrl := "https://sandbox.yayawallet.com" }

/-- `generateSignature`: the pre-hash string is the concatenation
`timestamp + method + endpoint + body`; the signature is the Base64 encoding
of the HMAC-SHA256 digest of that string under the API secret. -/
def generateSignature (secret timestamp method endpoint body : String) : String :=
  let preHashString := timestamp ++ method ++ endpoint ++ body
  base64Encode (hmacSha256 (strToBytes secret) (strToBytes preHashString))

/-- `getAuthHeaders`: one timestamp (`Date.now()`, taken here as the `now`
parameter in milliseconds) is used both for the timestamp header and for the
signature. -/
def getAuthHeaders (cfg : Config) (now : Nat) (method endpoint body : String) :
    List (String × String) :=
  let timestamp := toString now
  let signature := generateSignature cfg.apiSecret timestamp method endpoint body
  [("Content-Type", "application/json"),
   ("Accept", "application/json"),
   ("YAYA-API-KEY", cfg.apiKey),
   ("YAYA-API-TIMESTAMP", timestamp),
   ("YAYA-API-SIGN", signature)]

/-- Lookup of a header value by name. -/
def lookupHeader : List (String × String) → String → Option String
  | [], _ => none
  | (k, v) :: rest, key => if k = key then some v else lookupHeader rest key

/-- The nested user record of a normalized transaction.  The fields hold the
JavaScript values the source produces (`item.sender?.name || ''`), which are
strings unless the upstream supplied a truthy non-string. -/
structure TUserJ where
  name : JValue
  account : JValue

/-- A normalized transaction as built by `transformTransactions`.  Fields
whose defining expression always produces a JavaScript number (`parseFloat(x)
|| 0`) or boolean (`Boolean(x)`) are typed `JSNum` / `Bool`; the remaining
fields hold whatever JavaScript value the `||` default chain produces. -/
structure TransactionJ where
  id : JValue
  sender : TUserJ
  receiver : TUserJ
  amount_with_currency : JValue
  amount : JSNum
  amount_in_base_currency : JSNum
  fee : JSNum
  currency : JValue
  cause : JValue
  sender_caption : JValue
  receiver_caption : JValue
  created_at_time : JValue
  is_topup : Bool
  is_outgoing_transfer : Bool
  fee_vat : JSNum
  fee_before_vat : JSNum

/-- The per-item arrow function inside `transformTransactions`.  Each plain
property access `item.x` throws when `item` is nullish; `nowSec` stands for
`Math.floor(Date.now() / 1000)`. -/
def mapItem (nowSec : Int) (item : JValue) : Except String TransactionJ := do
  let idF ← getField item "id"
  let senderF ← getField item "sender"
  let receiverF ← getField item "receiver"
  let awcF ← getField item "amount_with_currency"
  let amountF ← getField item "amount"
  let aibcF ← getField item "amount_in_base_currency"
  let feeF ← getField item "fee"
  let currencyF ← getField item "currency"
  let causeF ← getField item "cause"
  let scF ← getField item "sender_caption"
  let rcF ← getField item "receiver_caption"
  let catF ← getField item "created_at_time"
  let topupF ← getField item "is_topup"
  let outF ← getField item "is_outgoing_transfer"
  let feeVatF ← getField item "fee_vat"
  let feeBvF ← getField item "fee_before_vat"
  pure
    { id := jsOr idF (.str "")
      sender :=
        { name := jsOr (jGetOpt senderF "name") (.str "")
          account := jsOr (jGetOpt senderF "account") (.str "") }
      receiver :=
        { name := jsOr (jGetOpt receiverF "name") (.str "")
          account := jsOr (jGetOpt receiverF "account") (.str "") }
      amount_with_currency :=
        jsOr awcF
          (.str (jsToString (jsOr amountF (.num (.val 0))) ++ ".00 " ++
                 jsToString (jsOr currencyF (.str "ETB"))))
      amount := orNum (parseFloatJ amountF) (.val 0)
      amount_in_base_currency :=
        orNum (parseFloatJ aibcF) (orNum (parseFloatJ amountF) (.val 0))
      fee := orNum (parseFloatJ feeF) (.val 0)
      currency := jsOr currencyF (.str "ETB")
      cause := jsOr causeF (.str "")
      sender_caption := jsOr scF (.str "")
      receiver_caption := jsOr rcF (.str "")
      created_at_time := jsOr catF (.num (.val (intF nowSec)))
      is_topup := truthy topupF
      is_outgoing_transfer := truthy outF
      fee_vat := orNum (parseFloatJ feeVatF) (.val 0)
      fee_before_vat := orNum (parseFloatJ feeBvF) (.val 0) }

/-- `Array.prototype.map` under a callback that can throw: the first throw
aborts the whole map. -/
def mapExcept (f : JValue → Except String TransactionJ) :
    List JValue → Except String (List TransactionJ)
  | [] => .ok []
  | x :: xs => do
    let y ← f x
    let ys ← mapExcept f xs
    pure (y :: ys)

/-- `transformTransactions`: a non-array input yields `[]`; an array is
mapped elementwise by `mapItem`. -/
def transformTransactions (nowSec : Int) (data : JValue) :
    Except String (List TransactionJ) :=
  match data with
  | .arr items => mapExcept (mapItem nowSec) items
  | _ => .ok []

/-- JSON escaping of a string (the body of `JSON.stringify` on a string
value), including the surrounding quotes. -/
def jsonEscape (s : String) : String :=
  "\"" ++ String.join (s.toList.map escChar) ++ "\""
where
  hex4 (n : Nat) : String :=
    String.mk ["0123456789abcdef".toList.getD (n / 4096 % 16) '0',
               "0123456789abcdef".toList.getD (n / 256 % 16) '0',
               "0123456789abcdef".toList.getD (n / 16 % 16) '0',
               "0123456789abcdef".toList.getD (n % 16) '0']
  escChar (c : Char) : String :=
    if c = '"' then "\\\""
    else if c = '\\' then "\\\\"
    else if c = '\n' then "\\n"
    else if c = '\r' then "\\r"
    else if c = '\t' then "\\t"
    else if c.toNat = 8 then "\\b"
    else if c.toNat = 12 then "\\f"
    else if c.toNat < 32 then "\\u" ++ hex4 c.toNat
    else String.singleton c

/-- `JSON.stringify({ query })` for a string `query`: the serialized search
request body. -/
def stringifyQueryBody (query : String) : String :=
  "\x7b\"query\":" ++ jsonEscape query ++ "\x7d"

/-- Modelled from axios: a plain-object request body is serialized with
`JSON.stringify`, so the bytes transmitted for `{ query }` are exactly
`stringifyQueryBody query`. -/
def axiosSerializeQueryBody (query : String) : String := stringifyQueryBody query

/-- The HTTP request issued by a gateway operation: method, path, transmitted
body and headers. -/
structure SentRequest where
  method : String
  endpoint : String
  body : String
  headers : List (String × String)

/-- The error thrown to the caller by the service (`HttpException`). -/
structure HttpErr where
  message : String
  status : Nat
deriving DecidableEq, Repr

/-- The pagination block of a gateway response.  `page` and `limit` are
numbers (`Number(page)`, `Number(limit)`); `total` and `totalPages` are the
values of `||` chains and may be any upstream value. -/
structure Pagination where
  page : JSNum
  limit : JSNum
  total : JValue
  totalPages : JValue

/-- The value returned by a gateway operation on success. -/
structure PaginatedResp where
  data : List TransactionJ
  pagination : Pagination
  incomingSum : JValue
  outgoingSum : JValue
  lastPage : JValue
  perPage : JValue

/-- The `catch` block of both gateway operations: any error thrown inside the
`try` block is replaced by one `HttpException` with the fixed message and
status 502 (`BAD_GATEWAY`). -/
def tryCatch502 (msg : String) (res : Except String PaginatedResp) :
    Except HttpErr PaginatedResp :=
  match res with
  | .ok r => .ok r
  | .error _ => .error { message := msg, status := 502 }

/-- The `try` block of `getTransactions`.  `upstream` models the awaited
`axios.get`: it receives the headers and either returns the response payload
(`response.data`) or throws.  After `response.data.data` has been read
successfully the payload is known non-nullish, so the remaining property
reads (`response.data.total`, …) are the total accessor `jGet`. -/
def getTransactionsTry (now : Nat) (page limit : JSNum)
    (upstream : List (String × String) → Except String JValue)
    (headers : List (String × String)) : Except String PaginatedResp :=
  match upstream headers with
  | .error e => .error e
  | .ok payload =>
    match getField payload "data" with
    | .error e => .error e
    | .ok dataF =>
      match transformTransactions (Int.ofNat (now / 1000)) (jsOr dataF (.arr [])) with
      | .error e => .error e
      | .ok txs =>
        .ok
          { data := txs
            pagination :=
              { page := page
                limit := limit
                total := jsOr (jGet payload "total") (.num (.val (natF txs.length)))
                totalPages :=
                  jsOr (jGet payload "lastPage")
                    (.num (jsCeil (jsDiv
                      (toNumber (jsOr (jGet payload "total") (.num (.val (natF txs.length)))))
                      limit))) }
            incomingSum := jGet payload "incomingSum"
            outgoingSum := jGet payload "outgoingSum"
            lastPage := jGet payload "lastPage"
            perPage := jGet payload "perPage" }

/-- `getTransactions(page = 1, limit = 10)`: builds the auth headers for
`GET /api/en/transaction/find-by-user` with an empty body, performs the
upstream call, and maps any thrown error to the fixed 502 `HttpException`.
The returned pair is (request sent, result). -/
def getTransactions (cfg : Config) (now : Nat) (page? limit? : Option JSNum)
    (upstream : List (String × String) → Except String JValue) :
    SentRequest × Except HttpErr PaginatedResp :=
  let page := page?.getD (.val 1)
  let limit := limit?.getD (.val 10)
  let endpoint := "/api/en/transaction/find-by-user"
  let method := "GET"
  let body := ""
  let headers := getAuthHeaders cfg now method endpoint body
  (⟨method, endpoint, body, headers⟩,
    tryCatch502 "Failed to fetch transactions from YaYa Wallet API"
      (getTransactionsTry now page limit upstream headers))

/-- The `try` block of `searchTransactions`: like `getTransactionsTry`, but
the data list falls back to the payload itself (`response.data.data ||
response.data`) and `totalPages` is always `Math.ceil(total / limit)`
(`lastPage` is not consulted). -/
def searchTransactionsTry (now : Nat) (page limit : JSNum)
    (upstream : List (String × String) → String → Except String JValue)
    (headers : List (String × String)) (transmitted : String) :
    Except String PaginatedResp :=
  match upstream headers transmitted with
  | .error e => .error e
  | .ok payload =>
    match getField payload "data" with
    | .error e => .error e
    | .ok dataF =>
      match transformTransactions (Int.ofNat (now / 1000)) (jsOr dataF payload) with
      | .error e => .error e
      | .ok txs =>
        .ok
          { data := txs
            pagination :=
              { page := page
                limit := limit
                total := jsOr (jGet payload "total") (.num (.val (natF txs.length)))
                totalPages :=
                  .num (jsCeil (jsDiv
                    (toNumber (jsOr (jGet payload "total") (.num (.val (natF txs.length)))))
                    limit)) }
            incomingSum := jGet payload "incomingSum"
            outgoingSum := jGet payload "outgoingSum"
            lastPage := jGet payload "lastPage"
            perPage := jGet payload "perPage" }

/-- `searchTransactions({ query, page = 1, limit = 10 })`: serializes
`{ query }`, signs that exact string, posts the same serialized body to
`/api/en/transaction/search`, and maps any thrown error to the fixed 502
`HttpException`. -/
def searchTransactions (cfg : Config) (now : Nat) (query : String)
    (page? limit? : Option JSNum)
    (upstream : List (String × String) → String → Except String JValue) :
    SentRequest × Except HttpErr PaginatedResp :=
  let page := page?.getD (.val 1)
  let limit := limit?.getD (.val 10)
  let endpoint := "/api/en/transaction/search"
  let method := "POST"
  let requestBody := stringifyQueryBody query
  let headers := getAuthHeaders cfg now method endpoint requestBody
  let transmitted := axiosSerializeQueryBody query
  (⟨method, endpoint, transmitted, headers⟩,
    tryCatch502 "Failed to search transactions from YaYa Wallet API"
      (searchTransactionsTry now page limit upstream headers transmitted))

/-! ## The controller (`AppController`) -/

/-- An error escaping a controller handler: either an `HttpException` or an
uncaught JavaScript TypeError. -/
inductive CtrlErr where
  | http (e : HttpErr) : CtrlErr
  | typeError : CtrlErr
deriving DecidableEq, Repr

/-- The validation portion of `AppController.getTransactions`: query-string
parameters default to `'1'` / `'10'`, are parsed with `parseInt(x, 10)`, and
invalid values are rejected with a 400 `HttpException` before the service
(and hence any upstream call) is invoked.  On success it returns the
`(pageNum, limitNum)` passed to the service. -/
def controllerGetTransactions (page? limit? : Option String) : Except HttpErr (Int × Int) :=
  match parseIntJS (page?.getD "1") with
  | none => .error { message := "Invalid page parameter", status := 400 }
  | some pageNum =>
    if pageNum < 1 then .error { message := "Invalid page parameter", status := 400 }
    else
      match parseIntJS (limit?.getD "10") with
      | none => .error { message := "Invalid limit parameter (1-100)", status := 400 }
      | some limitNum =>
        if limitNum < 1 ∨ 100 < limitNum then
          .error { message := "Invalid limit parameter (1-100)", status := 400 }
        else .ok (pageNum, limitNum)

/-- The validation portion of `AppController.searchTransactions`: first the
query check (`!searchDto.query || searchDto.query.trim().length === 0` →
400 "Search query is required"; a truthy non-string query makes `.trim()`
throw a TypeError), then the page/limit validation — the source repeats the
identical checks of the get handler inline, modelled here by calling the
same function — all before the service is invoked.  On success it returns
the query value and the `(pageNum, limitNum)` passed to the service. -/
def controllerSearchTransactions (query : JValue) (page? limit? : Option String) :
    Except CtrlErr (JValue × Int × Int) :=
  if ¬ truthy query then
    .error (.http { message := "Search query is required", status := 400 })
  else
    match query with
    | .str s =>
      if (jsTrim s).length = 0 then
        .error (.http { message := "Search query is required", status := 400 })
      else
        match controllerGetTransactions page? limit? with
        | .error e => .error (.http e)
        | .ok (p, l) => .ok (query, p, l)
    | _ => .error .typeError

/-! ## Concrete values used by witnesses and counterexamples -/

/-- A configuration with both credentials present. -/
def cfgW : Config := ⟨"key", "secret", "https://sandbox.yayawallet.com"⟩

/-- An environment that provides the two credentials and nothing else (in
particular no base-URL variable). -/
def envCredsOnly : String → Option String := fun k =>
  if k = "YAYA_API_KEY" then some "key"
  else if k = "YAYA_API_SECRET" then some "secret"
  else none

/-! ## Helper lemmas -/

/-- A field value is present and clean: not `undefined`, not `null`, and not
the number NaN. -/
def fieldOk (v : JValue) : Prop := isNullish v = false ∧ v ≠ .num .nan

/-- The per-field invariant `transformTransactions` guarantees on every
output record built from a non-nullish item: every field is present and
clean, and the number-typed fields are never NaN. -/
def goodTx (t : TransactionJ) : Prop :=
  fieldOk t.id ∧ fieldOk t.sender.name ∧ fieldOk t.sender.account ∧
  fieldOk t.receiver.name ∧ fieldOk t.receiver.account ∧
  fieldOk t.amount_with_currency ∧ t.amount ≠ .nan ∧
  t.amount_in_base_currency ≠ .nan ∧ t.fee ≠ .nan ∧
  fieldOk t.currency ∧ fieldOk t.cause ∧ fieldOk t.sender_caption ∧
  fieldOk t.receiver_caption ∧ fieldOk t.created_at_time ∧
  t.fee_vat ≠ .nan ∧ t.fee_before_vat ≠ .nan

/-- The record `mapItem` produces on a non-nullish item, with the throwing
property accesses replaced by the total accessor (proof helper; see
`mapItem_eq`). -/
def mapItemPure (nowSec : Int) (item : JValue) : TransactionJ :=
  { id := jsOr (jGet item "id") (.str "")
    sender :=
      { name := jsOr (jGetOpt (jGet item "sender") "name") (.str "")
        account := jsOr (jGetOpt (jGet item "sender") "account") (.str "") }
    receiver :=
      { name := jsOr (jGetOpt (jGet item "receiver") "name") (.str "")
        account := jsOr (jGetOpt (jGet item "receiver") "account") (.str "") }
    amount_with_currency :=
      jsOr (jGet item "amount_with_currency")
        (.str (jsToString (jsOr (jGet item "amount") (.num (.val 0))) ++ ".00 " ++
               jsToString (jsOr (jGet item "currency") (.str "ETB"))))
    amount := orNum (parseFloatJ (jGet item "amount")) (.val 0)
    amount_in_base_currency :=
      orNum (parseFloatJ (jGet item "amount_in_base_currency"))
        (orNum (parseFloatJ (jGet item "amount")) (.val 0))
    fee := orNum (parseFloatJ (jGet item "fee")) (.val 0)
    currency := jsOr (jGet item "currency") (.str "ETB")
    cause := jsOr (jGet item "cause") (.str "")
    sender_caption := jsOr (jGet item "sender_caption") (.str "")
    receiver_caption := jsOr (jGet item "receiver_caption") (.str "")
    created_at_time := jsOr (jGet item "created_at_time") (.num (.val (intF nowSec)))
    is_topup := truthy (jGet item "is_topup")
    is_outgoing_transfer := truthy (jGet item "is_outgoing_transfer")
    fee_vat := orNum (parseFloatJ (jGet item "fee_vat")) (.val 0)
    fee_before_vat := orNum (parseFloatJ (jGet item "fee_before_vat")) (.val 0) }

lemma mapItem_eq (now : Int) (item : JValue) (h : isNullish item = false) :
    mapItem now item = .ok (mapItemPure now item) := by
  cases item <;> first
    | rfl
    | simp [isNullish] at h

lemma truthy_fieldOk {v : JValue} (h : truthy v = true) : fieldOk v := by
  cases v with
  | undefined => simp [truthy] at h
  | null => simp [truthy] at h
  | bool b => exact ⟨rfl, by simp⟩
  | num n =>
    cases n with
    | nan => simp [truthy, numTruthy] at h
    | inf neg => exact ⟨rfl, by simp⟩
    | val q => exact ⟨rfl, by simp⟩
  | str s => exact ⟨rfl, by simp⟩
  | arr xs => exact ⟨rfl, by simp⟩
  | obj kvs => exact ⟨rfl, by simp⟩

lemma jsOr_fieldOk {a b : JValue} (hb : fieldOk b) : fieldOk (jsOr a b) := by
  unfold jsOr
  split
  · exact truthy_fieldOk (by assumption)
  · exact hb

lemma orNum_ne_nan {a b : JSNum} (hb : b ≠ .nan) : orNum a b ≠ .nan := by
  unfold orNum
  split
  · rename_i h
    cases a with
    | nan => simp [numTruthy] at h
    | inf neg => simp
    | val q => simp
  · exact hb

lemma fieldOk_str (s : String) : fieldOk (.str s) := ⟨rfl, by simp⟩

lemma fieldOk_num_val (q : Frac) : fieldOk (.num (.val q)) := ⟨rfl, by simp⟩

lemma mapItemPure_good (now : Int) (item : JValue) : goodTx (mapItemPure now item) := by
  refine ⟨jsOr_fieldOk (fieldOk_str ""), jsOr_fieldOk (fieldOk_str ""),
    jsOr_fieldOk (fieldOk_str ""), jsOr_fieldOk (fieldOk_str ""),
    jsOr_fieldOk (fieldOk_str ""), jsOr_fieldOk (fieldOk_str _),
    orNum_ne_nan (by simp), orNum_ne_nan (orNum_ne_nan (by simp)),
    orNum_ne_nan (by simp), jsOr_fieldOk (fieldOk_str "ETB"),
    jsOr_fieldOk (fieldOk_str ""), jsOr_fieldOk (fieldOk_str ""),
    jsOr_fieldOk (fieldOk_str ""), jsOr_fieldOk (fieldOk_num_val _),
    orNum_ne_nan (by simp), orNum_ne_nan (by simp)⟩

lemma mapExcept_good (now : Int) (items : List JValue)
    (h : ∀ x ∈ items, isNullish x = false) :
    ∃ ts, mapExcept (mapItem now) items = .ok ts ∧
      ts.length = items.length ∧ ∀ t ∈ ts, goodTx t := by
  induction items with
  | nil => exact ⟨[], rfl, rfl, by simp⟩
  | cons x xs ih =>
    have hx : isNullish x = false := h x (List.mem_cons_self x xs)
    obtain ⟨ts, hts, hlen, hgood⟩ := ih (fun y hy => h y (List.mem_cons_of_mem x hy))
    refine ⟨mapItemPure now x :: ts, ?_, by simp [hlen], ?_⟩
    · show (do
        let y ← mapItem now x
        let ys ← mapExcept (mapItem now) xs
        pure (y :: ys)) = .ok (mapItemPure now x :: ts)
      rw [mapItem_eq now x hx, hts]
      rfl
    · intro t ht
      rcases List.mem_cons.mp ht with h1 | h1
      · subst h1; exact mapItemPure_good now x
      · exact hgood t h1

lemma tryCatch502_cases (msg : String) (res : Except String PaginatedResp) :
    (∃ r, tryCatch502 msg res = .ok r) ∨
      tryCatch502 msg res = .error { message := msg, status := 502 } := by
  cases res with
  | ok r => exact .inl ⟨r, rfl⟩
  | error e => exact .inr rfl

/-! ## Claim theorems -/

/-- C1: for every secret, timestamp, method, endpoint and body,
`generateSignature` returns the standard Base64 encoding of the HMAC-SHA256
digest, keyed with the secret, of the exact undelimited concatenation
`timestamp + method + endpoint + body`; identical inputs always yield the
identical signature (the function is pure and deterministic). -/
theorem generateSignature_spec :
    (∀ secret timestamp method endpoint body : String,
      generateSignature secret timestamp method endpoint body =
        base64Encode (hmacSha256 (strToBytes secret)
          (strToBytes (timestamp ++ method ++ endpoint ++ body)))) ∧
    (∀ s₁ t₁ m₁ e₁ b₁ s₂ t₂ m₂ e₂ b₂ : String,
      s₁ = s₂ → t₁ = t₂ → m₁ = m₂ → e₁ = e₂ → b₁ = b₂ →
      generateSignature s₁ t₁ m₁ e₁ b₁ = generateSignature s₂ t₂ m₂ e₂ b₂) := by
  refine ⟨fun _ _ _ _ _ => rfl, ?_⟩
  intro s₁ t₁ m₁ e₁ b₁ s₂ t₂ m₂ e₂ b₂ hs ht hm he hb
  subst hs; subst ht; subst hm; subst he; subst hb
  rfl

/-- Witness for C1 at concrete inputs. -/
theorem generateSignature_spec_witness :
    generateSignature "key" "1700000000000" "GET" "/api/en/transaction/find-by-user" "" =
      base64Encode (hmacSha256 (strToBytes "key")
        (strToBytes ("1700000000000" ++ "GET" ++ "/api/en/transaction/find-by-user" ++ ""))) ∧
    generateSignature "key" "1" "GET" "/e" "" = generateSignature "key" "1" "GET" "/e" "" :=
  ⟨generateSignature_spec.1 "key" "1700000000000" "GET" "/api/en/transaction/find-by-user" "",
   generateSignature_spec.2 "key" "1" "GET" "/e" "" "key" "1" "GET" "/e" ""
     rfl rfl rfl rfl rfl⟩

/-- C5: in `searchTransactions` the string that is signed is byte-for-byte
the JSON body actually transmitted to the upstream (the serialization of the
`{ query }` object), so re-deriving the signature from the transmitted body
with the same timestamp, method and endpoint reproduces exactly the
signature placed in the `YAYA-API-SIGN` request header. -/
theorem searchTransactions_signature_roundtrip :
    ∀ (cfg : Config) (now : Nat) (query : String) (page? limit? : Option JSNum)
      (upstream : List (String × String) → String → Except String JValue),
      (searchTransactions cfg now query page? limit? upstream).1.body =
          axiosSerializeQueryBody query ∧
      axiosSerializeQueryBody query = stringifyQueryBody query ∧
      lookupHeader (searchTransactions cfg now query page? limit? upstream).1.headers
          "YAYA-API-SIGN" =
        some (generateSignature cfg.apiSecret (toString now) "POST"
          "/api/en/transaction/search"
          ((searchTransactions cfg now query page? limit? upstream).1.body)) := by
  intro cfg now query page? limit? upstream
  exact ⟨rfl, rfl, rfl⟩

/-- C6: for every transport failure or non-2xx upstream response (modelled as
the awaited axios call throwing), each gateway operation raises exactly the
fixed Bad Gateway (502) `HttpException` with a generic message, for every
thrown upstream error alike — so the upstream error text never appears in
the error surfaced to the caller, and the single upstream exchange is never
retried (each operation consumes exactly one upstream outcome). -/
theorem upstream_failure_maps_to_502 :
    ∀ (cfg : Config) (now : Nat) (page? limit? : Option JSNum) (query : String)
      (e₁ e₂ : String),
      (getTransactions cfg now page? limit? (fun _ => .error e₁)).2 =
        .error { message := "Failed to fetch transactions from YaYa Wallet API",
                 status := 502 } ∧
      (searchTransactions cfg now query page? limit? (fun _ _ => .error e₂)).2 =
        .error { message := "Failed to search transactions from YaYa Wallet API",
                 status := 502 } :=
  fun _ _ _ _ _ _ _ => ⟨rfl, rfl⟩

/-- C10: each gateway operation either succeeds or fails with the single
fixed 502 error — no other exception ever escapes — and an error after a
successful upstream response (here: normalization throwing on a `null`
element) yields that same 502, so a 502 does not imply the upstream call
failed. -/
theorem gateway_single_error_kind :
    ∀ (cfg : Config) (now : Nat) (page? limit? : Option JSNum) (query : String)
      (upG : List (String × String) → Except String JValue)
      (upS : List (String × String) → String → Except String JValue),
      ((∃ r, (getTransactions cfg now page? limit? upG).2 = .ok r) ∨
        (getTransactions cfg now page? limit? upG).2 =
          .error { message := "Failed to fetch transactions from YaYa Wallet API",
                   status := 502 }) ∧
      ((∃ r, (searchTransactions cfg now query page? limit? upS).2 = .ok r) ∨
        (searchTransactions cfg now query page? limit? upS).2 =
          .error { message := "Failed to search transactions from YaYa Wallet API",
                   status := 502 }) ∧
      (getTransactions cfg now page? limit?
          (fun _ => .ok (.obj [("data", .arr [.null])]))).2 =
        .error { message := "Failed to fetch transactions from YaYa Wallet API",
                 status := 502 } ∧
      (searchTransactions cfg now query page? limit?
          (fun _ _ => .ok (.obj [("data", .arr [.null])]))).2 =
        .error { message := "Failed to search transactions from YaYa Wallet API",
                 status := 502 } := by
  intro cfg now page? limit? query upG upS
  exact ⟨tryCatch502_cases _ _, tryCatch502_cases _ _, rfl, rfl⟩

/-- C2 (amended): `transformTransactions` returns `[]` on any non-array
input, and on an array whose elements are all non-nullish it never throws
and yields one record per element in which every field is present and is
never `undefined`, `null` or NaN (number-typed and boolean-typed fields are
well-typed by construction).  As stated the claim is false: a `null` element
makes the normalizer throw, and a truthy wrongly-typed upstream field (for
instance a numeric `id`) is passed through unchanged — see the
counterexample. -/
theorem transformTransactions_safety :
    (∀ (now : Int) (v : JValue), isArr v = false →
      transformTransactions now v = .ok []) ∧
    (∀ (now : Int) (items : List JValue), (∀ x ∈ items, isNullish x = false) →
      ∃ ts, transformTransactions now (.arr items) = .ok ts ∧
        ts.length = items.length ∧ ∀ t ∈ ts, goodTx t) := by
  constructor
  · intro now v hv
    cases v <;> first
      | rfl
      | simp [isArr] at hv
  · intro now items h
    simpa [transformTransactions] using mapExcept_good now items h

/-- Witness for C2 at concrete inputs: a non-array input, and an array of
two malformed but non-nullish items. -/
theorem transformTransactions_safety_witness :
    transformTransactions 7 (.str "nope") = .ok [] ∧
    ∃ ts, transformTransactions 7
        (.arr [.obj [("amount", .str "abc")], .str "x"]) = .ok ts ∧
      ts.length = 2 ∧ ∀ t ∈ ts, goodTx t :=
  ⟨transformTransactions_safety.1 7 (.str "nope") rfl,
   transformTransactions_safety.2 7 [.obj [("amount", .str "abc")], .str "x"]
     (by decide)⟩

/-- Counterexample to C2 as stated: a `null` array element makes the
normalizer throw a TypeError (the claim says it never throws however
malformed the elements are), and a truthy non-string `id` (here the number
5) is passed through, so the output `id` is not a string. -/
theorem transformTransactions_unsafe_counterexample :
    transformTransactions 0 (.arr [.null]) = .error "TypeError" ∧
    (transformTransactions 0 (.arr [.obj [("id", .num (.val 5))]])).map
        (fun ts => ts.map (fun t => t.id)) =
      .ok [.num (.val 5)] :=
  ⟨rfl, rfl⟩

/-- C3 (amended): for a non-nullish upstream item, the normalized
`amount_in_base_currency` is `parseFloat(item.amount_in_base_currency)` when
that parse is truthy (a number other than 0 and NaN), else
`parseFloat(item.amount)` when that parse is truthy, else 0.  As stated the
claim is false: the `||` chain also falls through when the item's own field
parses to 0, in which case the code uses `amount` instead of the parsed 0 —
see the counterexample. -/
theorem amount_in_base_currency_chain :
    ∀ (now : Int) (item : JValue), isNullish item = false →
      (transformTransactions now (.arr [item])).map
          (fun ts => ts.map (fun t => t.amount_in_base_currency)) =
        .ok [if numTruthy (parseFloatJ (jGet item "amount_in_base_currency")) then
               parseFloatJ (jGet item "amount_in_base_currency")
             else if numTruthy (parseFloatJ (jGet item "amount")) then
               parseFloatJ (jGet item "amount")
             else .val 0] := by
  intro now item h
  simp only [transformTransactions, mapExcept, mapItem_eq now item h, orNum]
  rfl

/-- Witness for C3 at a concrete item whose own field is absent and whose
`amount` parses to 7.25. -/
theorem amount_in_base_currency_chain_witness :
    isNullish (JValue.obj [("amount", .str "7.25")]) = false ∧
    (transformTransactions 3 (.arr [.obj [("amount", .str "7.25")]])).map
        (fun ts => ts.map (fun t => t.amount_in_base_currency)) =
      .ok [if numTruthy (parseFloatJ (jGet (.obj [("amount", .str "7.25")])
               "amount_in_base_currency")) then
             parseFloatJ (jGet (.obj [("amount", .str "7.25")])
               "amount_in_base_currency")
           else if numTruthy (parseFloatJ (jGet (.obj [("amount", .str "7.25")])
               "amount")) then
             parseFloatJ (jGet (.obj [("amount", .str "7.25")]) "amount")
           else .val 0] :=
  ⟨rfl, amount_in_base_currency_chain 3 (.obj [("amount", .str "7.25")]) rfl⟩

/-- Counterexample to C3 as stated: for an item whose own
`amount_in_base_currency` is present and parses to the number 0 (not NaN),
the claim requires the output 0, but the code falls through the falsy 0 and
outputs the parsed `amount` 5. -/
theorem amount_in_base_currency_counterexample :
    (transformTransactions 0
        (.arr [.obj [("amount_in_base_currency", .str "0"), ("amount", .str "5")]])).map
        (fun ts => ts.map (fun t => t.amount_in_base_currency)) =
      .ok [.val 5] ∧
    parseFloatJ (.str "0") = .val 0 ∧ (5 : Frac) ≠ 0 :=
  ⟨rfl, rfl, by decide⟩

/-- C8 (amended): for a non-nullish upstream item whose
`amount_with_currency` is falsy (in particular absent), the normalizer
synthesizes `amount_with_currency` as the template string
`` `${item.amount || 0}.00 ${item.currency || 'ETB'}` ``: the raw amount
value stringified — but with a falsy raw amount first defaulted to 0 — and
the currency after its default to "ETB".  As stated the claim is false: a
supplied truthy non-string `amount_with_currency` is passed through without
synthesis, and an absent raw amount yields "0", not the raw value
`undefined` — see the counterexample. -/
theorem amount_with_currency_synthesis :
    ∀ (now : Int) (item : JValue), isNullish item = false →
      truthy (jGet item "amount_with_currency") = false →
      (transformTransactions now (.arr [item])).map
          (fun ts => ts.map (fun t => t.amount_with_currency)) =
        .ok [.str (jsToString (jsOr (jGet item "amount") (.num (.val 0))) ++ ".00 " ++
               jsToString (jsOr (jGet item "currency") (.str "ETB")))] := by
  intro now item h htr
  simp only [transformTransactions, mapExcept, mapItem_eq now item h,
    mapItemPure, jsOr, htr, Bool.false_eq_true, if_false]
  rfl

/-- Witness for C8 at a concrete item with a raw string amount "12.5" and
currency "USD" and no `amount_with_currency`. -/
theorem amount_with_currency_synthesis_witness :
    isNullish (JValue.obj [("amount", .str "12.5"), ("currency", .str "USD")]) = false ∧
    truthy (jGet (.obj [("amount", .str "12.5"), ("currency", .str "USD")])
      "amount_with_currency") = false ∧
    (transformTransactions 0
        (.arr [.obj [("amount", .str "12.5"), ("currency", .str "USD")]])).map
        (fun ts => ts.map (fun t => t.amount_with_currency)) =
      .ok [.str (jsToString (jsOr (jGet (.obj [("amount", .str "12.5"),
               ("currency", .str "USD")]) "amount") (.num (.val 0))) ++ ".00 " ++
             jsToString (jsOr (jGet (.obj [("amount", .str "12.5"),
               ("currency", .str "USD")]) "currency") (.str "ETB")))] :=
  ⟨rfl, rfl,
   amount_with_currency_synthesis 0
     (.obj [("amount", .str "12.5"), ("currency", .str "USD")]) rfl rfl⟩

/-- Counterexample to C8 as stated: an item supplying the number 5 as
`amount_with_currency` does not supply a string, yet nothing is synthesized
(the number is passed through); and for an item with no amount at all the
code produces "0.00 ETB" from the defaulted 0, whereas the raw un-parsed
amount value is `undefined` (which stringifies as "undefined"). -/
theorem amount_with_currency_counterexample :
    (transformTransactions 0 (.arr [.obj [("amount_with_currency", .num (.val 5))]])).map
        (fun ts => ts.map (fun t => t.amount_with_currency)) =
      .ok [.num (.val 5)] ∧
    (transformTransactions 0 (.arr [.obj []])).map
        (fun ts => ts.map (fun t => t.amount_with_currency)) =
      .ok [.str "0.00 ETB"] ∧
    jsToString .undefined = "undefined" ∧ "0.00 ETB" ≠ "undefined.00 ETB" :=
  ⟨rfl, rfl, rfl, by decide⟩

/-- C4 (amended): on a successful exchange with an object payload, both
operations set `pagination.total` to the upstream `total` when it is truthy
and to the normalized data length otherwise; `getTransactions` sets
`totalPages` to the upstream `lastPage` when truthy, else to
`Math.ceil(total / limit)`; `searchTransactions` always sets `totalPages` to
`Math.ceil(total / limit)` and ignores `lastPage`.  As stated the claim is
false: upstream `total = 0` is supplied yet replaced by the data length, and
in `searchTransactions` a supplied `lastPage` never becomes `totalPages` —
see the counterexample. -/
theorem pagination_totals :
    ∀ (cfg : Config) (now : Nat) (page? limit? : Option JSNum) (query : String)
      (kvs : List (String × JValue)) (rG rS : PaginatedResp),
      ((getTransactions cfg now page? limit? (fun _ => .ok (.obj kvs))).2 = .ok rG →
        rG.pagination.total =
          (if truthy (jGet (.obj kvs) "total") then jGet (.obj kvs) "total"
           else .num (.val (natF rG.data.length))) ∧
        rG.pagination.totalPages =
          (if truthy (jGet (.obj kvs) "lastPage") then jGet (.obj kvs) "lastPage"
           else .num (jsCeil (jsDiv (toNumber rG.pagination.total)
             (limit?.getD (.val 10)))))) ∧
      ((searchTransactions cfg now query page? limit? (fun _ _ => .ok (.obj kvs))).2 = .ok rS →
        rS.pagination.total =
          (if truthy (jGet (.obj kvs) "total") then jGet (.obj kvs) "total"
           else .num (.val (natF rS.data.length))) ∧
        rS.pagination.totalPages =
          .num (jsCeil (jsDiv (toNumber rS.pagination.total)
            (limit?.getD (.val 10))))) := by
  intro cfg now page? limit? query kvs rG rS
  constructor
  · intro h
    rcases hT : transformTransactions (Int.ofNat (now / 1000))
        (jsOr (jGet (.obj kvs) "data") (.arr [])) with e | txs
    · simp only [getTransactions, getTransactionsTry, getField, hT,
        tryCatch502] at h
      exact Except.noConfusion h
    · simp only [getTransactions, getTransactionsTry, getField, hT,
        tryCatch502, Except.ok.injEq] at h
      subst h
      exact ⟨by simp [jsOr], by simp [jsOr]⟩
  · intro h
    rcases hT : transformTransactions (Int.ofNat (now / 1000))
        (jsOr (jGet (.obj kvs) "data") (.obj kvs)) with e | txs
    · simp only [searchTransactions, searchTransactionsTry, getField, hT,
        tryCatch502] at h
      exact Except.noConfusion h
    · simp only [searchTransactions, searchTransactionsTry, getField, hT,
        tryCatch502, Except.ok.injEq] at h
      subst h
      exact ⟨by simp [jsOr], by simp [jsOr]⟩

/-- Witness for C4 at a concrete payload: upstream supplies
`{data: [], total: 3}` and no `lastPage`, page and limit are defaulted. -/
theorem pagination_totals_witness :
    (⟨[], ⟨.val 1, .val 10, .num (.val 3),
        .num (jsCeil (jsDiv (toNumber (JValue.num (.val 3))) (.val 10)))⟩,
      .undefined, .undefined, .undefined, .undefined⟩ : PaginatedResp).pagination.total =
      (if truthy (jGet (.obj [("data", .arr []), ("total", .num (.val 3))]) "total") then
        jGet (.obj [("data", .arr []), ("total", .num (.val 3))]) "total"
      else .num (.val (natF (⟨[], ⟨.val 1, .val 10, .num (.val 3),
        .num (jsCeil (jsDiv (toNumber (JValue.num (.val 3))) (.val 10)))⟩,
        .undefined, .undefined, .undefined, .undefined⟩ : PaginatedResp).data.length))) ∧
    (⟨[], ⟨.val 1, .val 10, .num (.val 3),
        .num (jsCeil (jsDiv (toNumber (JValue.num (.val 3))) (.val 10)))⟩,
      .undefined, .undefined, .undefined, .undefined⟩ : PaginatedResp).pagination.totalPages =
      (if truthy (jGet (.obj [("data", .arr []), ("total", .num (.val 3))]) "lastPage") then
        jGet (.obj [("data", .arr []), ("total", .num (.val 3))]) "lastPage"
      else .num (jsCeil (jsDiv (toNumber ((⟨[], ⟨.val 1, .val 10, .num (.val 3),
        .num (jsCeil (jsDiv (toNumber (JValue.num (.val 3))) (.val 10)))⟩,
        .undefined, .undefined, .undefined, .undefined⟩ : PaginatedResp).pagination.total))
          ((some (JSNum.val 10)).getD (.val 10))))) :=
  (pagination_totals cfgW 0 (some (.val 1)) (some (.val 10)) "q"
    [("data", .arr []), ("total", .num (.val 3))]
    ⟨[], ⟨.val 1, .val 10, .num (.val 3),
        .num (jsCeil (jsDiv (toNumber (JValue.num (.val 3))) (.val 10)))⟩,
      .undefined, .undefined, .undefined, .undefined⟩
    ⟨[], ⟨.val 1, .val 10, .num (.val 3),
        .num (jsCeil (jsDiv (toNumber (JValue.num (.val 3))) (.val 10)))⟩,
      .undefined, .undefined, .undefined, .undefined⟩).1 rfl

/-- Counterexample to C4 as stated: a search payload supplying `lastPage = 7`
still gets `totalPages = ceil(total / limit) = 1` (the claim requires 7),
and a fetch payload supplying `total = 0` gets `pagination.total = 1` (the
data length) instead of the supplied 0. -/
theorem pagination_counterexample :
    (Except.map (fun r => r.pagination.totalPages)
      (searchTransactions cfgW 0 "q" none none
        (fun _ _ => .ok (.obj [("data", .arr []), ("total", .num (.val 1)),
          ("lastPage", .num (.val 7))]))).2) = .ok (.num (.val 1)) ∧
    (Except.map (fun r => r.pagination.total)
      (getTransactions cfgW 0 none none
        (fun _ => .ok (.obj [("data", .arr [.obj []]),
          ("total", .num (.val 0))]))).2) = .ok (.num (.val 1)) ∧
    (JSNum.val 1 ≠ .val 7) ∧ (JSNum.val 1 ≠ .val 0) :=
  ⟨rfl, rfl, by decide, by decide⟩

/-- C7 (amended): in both controller handlers a page whose
`parseInt(page, 10)` is NaN or below 1 is rejected with 400
"Invalid page parameter"; once the page passes, a limit whose parse is NaN
or outside [1, 100] is rejected with 400 "Invalid limit parameter (1-100)";
a search body whose query is falsy or a whitespace-only string is rejected
with 400 "Search query is required" before the page/limit checks; omitted
parameters default to page 1, limit 10; and the validators consult no
upstream (they are functions of the inbound parameters only), so rejection
happens before any network call.  As stated the claim is false: `parseInt`
truncates, so non-integer strings such as "2.9" are accepted as page 2
rather than rejected — see the counterexample. -/
theorem controller_validation :
    (∀ (ps ls : Option String),
      (parseIntJS (ps.getD "1") = none ∨
        ∃ n, parseIntJS (ps.getD "1") = some n ∧ n < 1) →
      controllerGetTransactions ps ls =
        .error { message := "Invalid page parameter", status := 400 }) ∧
    (∀ (ps ls : Option String) (n : Int),
      parseIntJS (ps.getD "1") = some n → 1 ≤ n →
      (parseIntJS (ls.getD "10") = none ∨
        ∃ m, parseIntJS (ls.getD "10") = some m ∧ (m < 1 ∨ 100 < m)) →
      controllerGetTransactions ps ls =
        .error { message := "Invalid limit parameter (1-100)", status := 400 }) ∧
    (∀ (ps ls : Option String) (n m : Int),
      parseIntJS (ps.getD "1") = some n → 1 ≤ n →
      parseIntJS (ls.getD "10") = some m → 1 ≤ m → m ≤ 100 →
      controllerGetTransactions ps ls = .ok (n, m)) ∧
    controllerGetTransactions none none = .ok (1, 10) ∧
    (∀ (q : JValue) (ps ls : Option String),
      (truthy q = false ∨ ∃ s, q = .str s ∧ (jsTrim s).length = 0) →
      controllerSearchTransactions q ps ls =
        .error (.http { message := "Search query is required", status := 400 })) ∧
    (∀ (s : String) (ps ls : Option String),
      truthy (JValue.str s) = true → (jsTrim s).length ≠ 0 →
      controllerSearchTransactions (.str s) ps ls =
        (match controllerGetTransactions ps ls with
         | .error e => .error (.http e)
         | .ok (p, l) => .ok (.str s, p, l))) ∧
    controllerSearchTransactions (.str "x") none none = .ok (.str "x", 1, 10) := by
  refine ⟨?_, ?_, ?_, rfl, ?_, ?_, rfl⟩
  · intro ps ls h
    unfold controllerGetTransactions
    rcases h with h | ⟨n, hn, hlt⟩
    · rw [h]
    · rw [hn]
      simp [hlt]
  · intro ps ls n hn h1 h
    have hn1 : ¬ n < 1 := by omega
    rcases h with h | ⟨m, hm, hrange⟩
    · simp [controllerGetTransactions, hn, hn1, h]
    · simp [controllerGetTransactions, hn, hn1, hm, hrange]
  · intro ps ls n m hn h1 hm h2 h3
    have hn1 : ¬ n < 1 := by omega
    have hm1 : ¬ (m < 1 ∨ 100 < m) := by omega
    simp [controllerGetTransactions, hn, hm, hn1, hm1]
  · intro q ps ls h
    rcases h with h | ⟨s, rfl, hs⟩
    · unfold controllerSearchTransactions
      rw [h]
      rfl
    · cases htr : truthy (JValue.str s) with
      | false => simp [controllerSearchTransactions, htr]
      | true => simp [controllerSearchTransactions, htr, hs]
  · intro s ps ls ht hlen
    unfold controllerSearchTransactions
    simp [ht, hlen]

/-- Witness for C7 at concrete parameters: page "0" rejected, limit "101"
rejected, page "3" and limit "20" accepted, whitespace query rejected. -/
theorem controller_validation_witness :
    controllerGetTransactions (some "0") none =
      .error { message := "Invalid page parameter", status := 400 } ∧
    controllerGetTransactions none (some "101") =
      .error { message := "Invalid limit parameter (1-100)", status := 400 } ∧
    controllerGetTransactions (some "3") (some "20") = .ok (3, 20) ∧
    controllerSearchTransactions (.str "   ") none none =
      .error (.http { message := "Search query is required", status := 400 }) :=
  ⟨controller_validation.1 (some "0") none (.inr ⟨0, rfl, by norm_num⟩),
   controller_validation.2.1 none (some "101") 1 rfl (by norm_num)
     (.inr ⟨101, rfl, .inr (by norm_num)⟩),
   controller_validation.2.2.1 (some "3") (some "20") 3 20 rfl (by norm_num) rfl
     (by norm_num) (by norm_num),
   controller_validation.2.2.2.2.1 (.str "   ") none none (.inr ⟨"   ", rfl, rfl⟩)⟩

/-- Counterexample to C7 as stated: the page parameter "2.9" is not a
positive integer, and "10.5" is not an integer, yet neither is rejected —
`parseInt` truncates them to 2 and 10 and the requests proceed. -/
theorem controller_parseInt_counterexample :
    controllerGetTransactions (some "2.9") none = .ok (2, 10) ∧
    controllerGetTransactions none (some "10.5") = .ok (1, 10) :=
  ⟨rfl, rfl⟩

/-- C9 (amended): the constructor reads `YAYA_API_KEY` and `YAYA_API_SECRET`
once from the environment (defaulting to "" when absent) and throws the
fixed configuration error exactly when either is missing or empty, so the
service never initializes without credentials; the base URL, however, is the
hard-coded constant `https://sandbox.yayawallet.com` — it is not read from
the environment, and its absence from the environment is not an error.
(Immutability holds by construction: the model configuration is a plain
value that no operation writes.)  As stated the claim is false about the
base URL — see the counterexample. -/
theorem credentials_startup_check :
    (∀ env : String → Option String,
      mkAppService env = .error "YaYa Wallet API credentials not configured" ↔
        ((env "YAYA_API_KEY").getD "" = "" ∨ (env "YAYA_API_SECRET").getD "" = "")) ∧
    (∀ (env : String → Option String) (cfg : Config),
      mkAppService env = .ok cfg →
        cfg = { apiKey := (env "YAYA_API_KEY").getD "",
                apiSecret := (env "YAYA_API_SECRET").getD "",
                baseUrl := "https://sandbox.yayawallet.com" }) := by
  constructor
  · intro env
    by_cases hc : ((env "YAYA_API_KEY").getD "" = "" ∨ (env "YAYA_API_SECRET").getD "" = "")
    · exact ⟨fun _ => hc, fun _ => by simp [mkAppService, hc]⟩
    · constructor
      · intro hcontra
        simp [mkAppService, hc] at hcontra
      · intro hor
        exact absurd hor hc
  · intro env cfg h
    by_cases hc : ((env "YAYA_API_KEY").getD "" = "" ∨ (env "YAYA_API_SECRET").getD "" = "")
    · simp [mkAppService, hc] at h
    · simp [mkAppService, hc] at h
      exact h.symm

/-- Witness for C9: a fully empty environment is rejected, and with both
credentials present the constructed configuration is exactly the two
environment values plus the constant base URL. -/
theorem credentials_startup_check_witness :
    (mkAppService (fun _ => none) =
      .error "YaYa Wallet API credentials not configured") ∧
    ((⟨"key", "secret", "https://sandbox.yayawallet.com"⟩ : Config) =
      { apiKey := (envCredsOnly "YAYA_API_KEY").getD "",
        apiSecret := (envCredsOnly "YAYA_API_SECRET").getD "",
        baseUrl := "https://sandbox.yayawallet.com" }) :=
  ⟨(credentials_startup_check.1 (fun _ => none)).mpr (.inl rfl),
   credentials_startup_check.2 envCredsOnly
     ⟨"key", "secret", "https://sandbox.yayawallet.com"⟩ rfl⟩

/-- Counterexample to C9 as stated: with credentials present but no base URL
anywhere in the environment the constructor succeeds (the claim requires a
fatal startup error), and even an explicitly configured base URL is ignored
in favour of the hard-coded constant. -/
theorem baseUrl_not_from_env_counterexample :
    envCredsOnly "YAYA_API_BASE_URL" = none ∧
    mkAppService envCredsOnly =
      .ok { apiKey := "key", apiSecret := "secret",
            baseUrl := "https://sandbox.yayawallet.com" } ∧
    mkAppService (fun k =>
        if k = "YAYA_API_BASE_URL" then some "https://example.com"
        else envCredsOnly k) =
      .ok { apiKey := "key", apiSecret := "secret",
            baseUrl := "https://sandbox.yayawallet.com" } :=
  ⟨rfl, rfl, rfl⟩

end Yaya
